import Mathlib

/-!
Verification development for the DPoS chain controller of this repository
(`libraries/chain/chain_controller.cpp`).  Each namespace below embeds one
part of the controller as executable Lean definitions; functions keep their
source names where Lean allows it.  Collaborator components that the
repository does not ship (the fork database, the chainbase store, the
authority checker, cryptography) are modelled from the specification and
say so in their doc comments.  Machine integers of the source are embedded
as `Nat`; all the arithmetic proved about stays far below the 32/64-bit
overflow boundaries, and places where the C++ would overflow or index out
of range are noted where they matter.
-/

namespace Eos

/-- Error codes standing for the exception kinds thrown by the source
(`tx_duplicate`, `block_validate_exception`, ...).  The controller only
ever propagates them, so a numeric tag is a faithful embedding. -/
def txDuplicate : Nat := 1

/-- Error code for `tx_missing_sigs`. -/
def txMissingSigs : Nat := 2

/-- Error code for `tx_irrelevant_auth`. -/
def txIrrelevantAuth : Nat := 3

/-- Error code for `tx_irrelevant_sig`. -/
def txIrrelevantSig : Nat := 4

/-- Error code for `block_validate_exception`. -/
def blockValidateErr : Nat := 5

/-- Error code for `pop_empty_chain`. -/
def popEmptyChainErr : Nat := 6

/-- Error code for the fork database's `no_common_ancestor` failure. -/
def noCommonAncestorErr : Nat := 7

/-- Error code for a failed database lookup of a producer object
(`_db.get` throwing inside `get_producer`). -/
def unknownProducerErr : Nat := 8

namespace Lib

/-- Ordered insertion of a natural into a list, helper for `sortNat`. -/
def insertSorted (a : Nat) : List Nat → List Nat
  | [] => [a]
  | b :: l => if a ≤ b then a :: b :: l else b :: insertSorted a l

/-- Insertion sort on naturals.  `update_last_irreversible_block` runs
`std::nth_element(v.begin(), v.begin()+offset, v.end())` and then reads
`v[offset]`; the C++ postcondition of `nth_element` is exactly that
`v[offset]` equals the element the fully sorted sequence has at index
`offset`, so the embedding selects `(sortNat confs).getD offset 0`. -/
def sortNat : List Nat → List Nat
  | [] => []
  | b :: l => insertSorted b (sortNat l)

/-- Modelled from the spec: the `EOS_PERCENT` macro and the `config`
constants are not part of the shipped sources; the spec states the
selection index as `(100 − irreversible_threshold_percent)·L/100`, so the
percent scale of this embedding is 100. -/
def eosPercent (x p : Nat) : Nat := x * p / 100

/-- State touched by `update_last_irreversible_block`
(chain_controller.cpp:1150-1220).

* `producerConfs` — the `last_confirmed_block_num` of each active producer,
  i.e. the vector `producer_objs` built from `gpo.active_producers` through
  `get_producer` (lines 1155-1159);
* `thresholdPercent` — `config::irreversible_threshold_percent`;
* `pendingSchedules` — `gpo.pending_active_producers`, a list of
  `(activation_block, schedule)` pairs, with the schedule abbreviated to a
  numeric tag (its contents never influence control flow here);
* `activeScheduleId` — tag of `gpo.active_producers`' schedule;
* `lib` — `dpo.last_irreversible_block_num`;
* `blockLog` — block numbers appended to the block log, in order, so
  `_block_log.head()` is the last element;
* `commitCalls` — the arguments of the `_db.commit` calls made so far;
* `headBlockNum`, `forkDbMaxSize` — for `_fork_db.set_max_size`. -/
structure LibState where
  producerConfs : List Nat
  thresholdPercent : Nat
  pendingSchedules : List (Nat × Nat)
  activeScheduleId : Nat
  lib : Nat
  blockLog : List Nat
  commitCalls : List Nat
  headBlockNum : Nat
  forkDbMaxSize : Nat
deriving DecidableEq

/-- Fuel-indexed embedding of the pending-schedule erase loop
(chain_controller.cpp:1206-1210):
`while (gpo.pending_active_producers.size()) if (front.first < new_lib) erase(front);`.
The body erases the front entry only when it activates strictly below
`newLib`; on any other nonempty list the loop spins without changing it,
which the fuel turns into `none` (divergence). -/
def eraseLoop : Nat → List (Nat × Nat) → Nat → Option (List (Nat × Nat))
  | _, [], _ => some []
  | 0, _ :: _, _ => none
  | fuel + 1, (a, sch) :: rest, newLib =>
    if a < newLib then eraseLoop fuel rest newLib
    else eraseLoop fuel ((a, sch) :: rest) newLib

/-- Embedding of the loop at chain_controller.cpp:1197-1202 that selects
the latest pending schedule whose activation block is below `newLib`. -/
def latestPendingSchedule (pending : List (Nat × Nat)) (newLib : Nat) : Option Nat :=
  pending.foldl (fun acc item => if item.1 < newLib then some item.2 else acc) none

/-- Block number of the last block in the block log, 0 when the log is
empty (chain_controller.cpp:1178-1182). -/
def lastBlockOnDisk (log : List Nat) : Nat := log.getLast?.getD 0

/-- Candidate for the new last irreversible block number
(chain_controller.cpp:1163-1169): the element at index
`EOS_PERCENT(L, percent_100 - irreversible_threshold_percent)` of the
sorted confirmation numbers.  Out-of-range indexing, which in C++ would be
undefined behaviour on an empty producer vector, is embedded as default 0. -/
def libCandidate (s : LibState) : Nat :=
  (sortNat s.producerConfs).getD
    (eosPercent s.producerConfs.length (100 - s.thresholdPercent)) 0

/-- Embedding of `update_last_irreversible_block`
(chain_controller.cpp:1150-1220).  Steps, in source order: select the
candidate (lines 1163-1169); advance the stored value only when the
candidate exceeds it (1171-1175); append blocks `disk+1 .. candidate` to
the block log when the candidate is past the log head (1184-1193); when
the candidate is past the log head, activate the latest pending schedule
below it and run the erase loop (1195-1214); finally resize the fork
database and call `_db.commit(candidate)` (1218-1219).  `none` means the
erase loop diverged, in which case the source never reaches the commit. -/
def update_last_irreversible_block (fuel : Nat) (s : LibState) : Option LibState :=
  let newLib := libCandidate s
  let s1 := if s.lib < newLib then { s with lib := newLib } else s
  let disk := lastBlockOnDisk s.blockLog
  let s2 := if disk < newLib
    then { s1 with blockLog := s1.blockLog ++ List.range' (disk + 1) (newLib - disk) }
    else s1
  let s3opt :=
    if disk < newLib then
      match latestPendingSchedule s.pendingSchedules newLib with
      | none => some s2
      | some sch =>
        match eraseLoop fuel s2.pendingSchedules newLib with
        | none => none
        | some rest => some { s2 with pendingSchedules := rest, activeScheduleId := sch }
    else some s2
  s3opt.map fun s3 =>
    { s3 with forkDbMaxSize := s3.headBlockNum - newLib + 1,
              commitCalls := s3.commitCalls ++ [newLib] }

/-- Input state of the C3 witness: 21 active producers at threshold 66%,
eight of whose confirmation numbers are at or below 15 so that the sorted
sequence has 15 at index 7; stored LIB 10 and block log ending at 10. -/
def c3State : LibState :=
  { producerConfs := [10, 10, 10, 10, 10, 10, 10, 15, 20, 20, 20,
                      20, 20, 20, 20, 20, 20, 20, 20, 20, 20]
    thresholdPercent := 66
    pendingSchedules := []
    activeScheduleId := 0
    lib := 10
    blockLog := [10]
    commitCalls := []
    headBlockNum := 16
    forkDbMaxSize := 0 }

/-- Output state of the C3 witness. -/
def c3StateAfter : LibState :=
  { producerConfs := [10, 10, 10, 10, 10, 10, 10, 15, 20, 20, 20,
                      20, 20, 20, 20, 20, 20, 20, 20, 20, 20]
    thresholdPercent := 66
    pendingSchedules := []
    activeScheduleId := 0
    lib := 15
    blockLog := [10, 11, 12, 13, 14, 15]
    commitCalls := [15]
    headBlockNum := 16
    forkDbMaxSize := 2 }

/-- One controller operation as the amended C2 statement sees it: either a
completed `update_last_irreversible_block` — the only writer of
`dpo.last_irreversible_block_num` (its sole assignment is at
chain_controller.cpp:1171-1175) — or any other completed or rolled-back
work that leaves the stored LIB unchanged.  Fork-switch pops are exactly
what this relation excludes: `pop_block`'s `_db.undo()` rewinds the field
to an earlier snapshot. -/
inductive LibStep : LibState → LibState → Prop
  | updateIrr : ∀ (fuel : Nat) (s s' : LibState),
      update_last_irreversible_block fuel s = some s' → LibStep s s'
  | preserves : ∀ (s s' : LibState), s'.lib = s.lib → LibStep s s'

/-- First state of the C2 amended-claim witness chain. -/
def c2w0 : LibState :=
  { producerConfs := [2]
    thresholdPercent := 66
    pendingSchedules := []
    activeScheduleId := 0
    lib := 1
    blockLog := [2]
    commitCalls := []
    headBlockNum := 3
    forkDbMaxSize := 0 }

/-- Second state of the C2 amended-claim witness chain, result of one
`update_last_irreversible_block`. -/
def c2w1 : LibState :=
  { producerConfs := [2]
    thresholdPercent := 66
    pendingSchedules := []
    activeScheduleId := 0
    lib := 2
    blockLog := [2]
    commitCalls := [2]
    headBlockNum := 3
    forkDbMaxSize := 2 }

/-- Third state of the C2 amended-claim witness chain, after further
LIB-preserving work. -/
def c2w2 : LibState :=
  { producerConfs := [2]
    thresholdPercent := 66
    pendingSchedules := []
    activeScheduleId := 0
    lib := 2
    blockLog := [2]
    commitCalls := [2]
    headBlockNum := 4
    forkDbMaxSize := 0 }

/-- Input state of the C9 failing input: one producer confirmed up to 10
(candidate 10), block log ending at 5, and a pending-schedule list holding
one entry activating below the candidate and one at or above it. -/
def c9State : LibState :=
  { producerConfs := [10]
    thresholdPercent := 66
    pendingSchedules := [(5, 1), (20, 2)]
    activeScheduleId := 0
    lib := 5
    blockLog := [5]
    commitCalls := []
    headBlockNum := 10
    forkDbMaxSize := 0 }

end Lib

namespace Header

/-- Producer object fields read by `validate_block_header`. -/
structure ProducerObj where
  owner : Nat
  signingKey : Nat
deriving DecidableEq

/-- Header fields of a signed block as read by `validate_block_header`
(chain_controller.cpp:790-817).  Timestamps are embedded as
`block_timestamp` slot counts; `signee` is the public key recovered from
the block signature, so `validate_signee(k)` is `signee = k`;
`blockNum` is `block_num()` (the height encoded by `previous`). -/
structure BlockData where
  previous : Nat
  timestamp : Nat
  producer : Nat
  transactionMroot : Nat
  newProducers : Option Nat
  signee : Nat
  blockNum : Nat
  inputTransactions : List Nat
deriving DecidableEq

/-- Controller state read by `validate_block_header` and the scheduler
functions (chain_controller.cpp:1243-1281).  `producerObjs` is the
`by_owner` producer index. -/
structure HState where
  headBlockId : Nat
  headBlockTime : Nat
  headBlockNum : Nat
  currentAbsoluteSlot : Nat
  genesisTime : Nat
  activeProducers : List Nat
  producerObjs : List (Nat × ProducerObj)
  blocksPerRound : Nat
  producerRepetitions : Nat
deriving DecidableEq

/-- Embedding of `get_slot_time` (chain_controller.cpp:1255-1273), with
times as slot counts: slot 0 is invalid (returns the zero timestamp);
before the first block slots count from the genesis time, afterwards from
the head block time. -/
def get_slot_time (s : HState) (slotNum : Nat) : Nat :=
  if slotNum = 0 then 0
  else if s.headBlockNum = 0 then s.genesisTime + slotNum
  else s.headBlockTime + slotNum

/-- Embedding of `get_slot_at_time` (chain_controller.cpp:1275-1281). -/
def get_slot_at_time (s : HState) (t : Nat) : Nat :=
  let first := get_slot_time s 1
  if t < first then 0 else t - first + 1

/-- Embedding of `get_scheduled_producer` (chain_controller.cpp:1243-1253):
`active_producers[((current_absolute_slot + slot_num) % blocks_per_round) /
producer_repetitions]`.  The C++ indexes the producer array directly; the
embedding uses default 0 out of range. -/
def get_scheduled_producer (s : HState) (slotNum : Nat) : Nat :=
  let index := ((s.currentAbsoluteSlot + slotNum) % s.blocksPerRound) / s.producerRepetitions
  s.activeProducers.getD index 0

/-- Embedding of `get_producer` (chain_controller.cpp:935-938): a
`by_owner` index lookup that throws when the producer is missing. -/
def get_producer (s : HState) (owner : Nat) : Option ProducerObj :=
  (s.producerObjs.find? fun p => p.1 == owner).map Prod.snd

/-- Embedding of `validate_block_header` (chain_controller.cpp:790-817),
with the asserts in source order: `previous` must equal the head id;
the timestamp must exceed the head time; off-round blocks must not carry
`new_producers`; the scheduled producer for the block's slot is looked up;
unless skipped, the signature must verify under that producer's signing
key; unless skipped, the block's `producer` must equal that producer; and
the recomputed transaction merkle root must match the header.
`calcTxMroot` stands for `signed_block::calculate_transaction_merkle_root`,
whose merkle code the repository does not ship. -/
def validate_block_header (calcTxMroot : List Nat → Nat) (s : HState)
    (skipProducerSignature skipProducerScheduleCheck : Bool)
    (nb : BlockData) : Except Nat ProducerObj :=
  if ¬ s.headBlockId = nb.previous then .error blockValidateErr
  else if ¬ s.headBlockTime < nb.timestamp then .error blockValidateErr
  else if ¬ nb.blockNum % s.blocksPerRound = 0 ∧ ¬ nb.newProducers = none then
    .error blockValidateErr
  else
    match get_producer s (get_scheduled_producer s (get_slot_at_time s nb.timestamp)) with
    | none => .error unknownProducerErr
    | some producer =>
      if skipProducerSignature = false ∧ ¬ nb.signee = producer.signingKey then
        .error blockValidateErr
      else if skipProducerScheduleCheck = false ∧ ¬ nb.producer = producer.owner then
        .error blockValidateErr
      else if ¬ calcTxMroot nb.inputTransactions = nb.transactionMroot then
        .error blockValidateErr
      else .ok producer

/-- Merkle-root stand-in of the C5 witness. -/
def c5Mroot (l : List Nat) : Nat := l.foldl (· + ·) 0

/-- Controller state of the C5 witness. -/
def c5State : HState :=
  { headBlockId := 90
    headBlockTime := 100
    headBlockNum := 5
    currentAbsoluteSlot := 0
    genesisTime := 0
    activeProducers := [7]
    producerObjs := [(7, { owner := 7, signingKey := 42 })]
    blocksPerRound := 1
    producerRepetitions := 1 }

/-- Block of the C5 witness. -/
def c5Block : BlockData :=
  { previous := 90
    timestamp := 101
    producer := 7
    transactionMroot := 5
    newProducers := none
    signee := 42
    blockNum := 6
    inputTransactions := [2, 3] }

end Header

namespace Trace

/-- Action-trace fields the claim is about (the type itself lives outside
the shipped sources; the spec lists the region, cycle and shard indices
among its fields). -/
structure ActionTrace where
  receiver : Nat
  regionId : Nat
  cycleIndex : Nat
  shardIndex : Nat
deriving DecidableEq

/-- Fields of `transaction_metadata` read by `_apply_transaction`; the
constructor at chain_controller.cpp:573 receives the region, the cycle
index, and the shard index of the receipt being applied. -/
structure TransMeta where
  regionId : Nat
  cycleIndex : Nat
  shardIndex : Nat
  actions : List Nat
deriving DecidableEq

/-- Embedding of `_apply_transaction` (chain_controller.cpp:1293-1343)
restricted to trace production: `context.exec()` per action is the
external Execution Interface, passed in as `execAction`.  After collecting
the applied-action traces the source stamps `region_id` and `cycle_index`
into every action trace (lines 1306-1309) — and nothing else: the
`shard_index` carried by the metadata is not copied into the traces. -/
def _apply_transaction (execAction : Nat → List ActionTrace)
    (meta : TransMeta) : List ActionTrace :=
  let traces := meta.actions.foldl (fun acc a => acc ++ execAction a) []
  traces.map fun t => { t with regionId := meta.regionId, cycleIndex := meta.cycleIndex }

/-- Embedding of the per-shard loop of `__apply_block`
(chain_controller.cpp:561-590): shard `i` of a cycle gets a
`transaction_metadata` built with `shard_index = i` (lines 566-573, 587),
and the transactions of its executed receipts are applied through
`_apply_transaction`; `txActions` plays the role of the `trx_index` lookup
of input transactions. -/
def applyCycleShards (execAction : Nat → List ActionTrace)
    (txActions : Nat → List Nat) (regionId cycleIndex : Nat)
    (shards : List (List Nat)) : List (List ActionTrace) :=
  shards.enum.map fun p =>
    p.2.foldl
      (fun acc txid =>
        acc ++ _apply_transaction execAction
          { regionId := regionId, cycleIndex := cycleIndex,
            shardIndex := p.1, actions := txActions txid })
      []

/-- Execution stand-in of the C8 counterexample: one action trace whose
fields start out zeroed, as a fresh `action_trace` does before stamping. -/
def c8Exec (_a : Nat) : List ActionTrace :=
  [{ receiver := 9, regionId := 0, cycleIndex := 0, shardIndex := 0 }]

/-- Transaction lookup of the C8 counterexample. -/
def c8TxActions (_t : Nat) : List Nat := [0]

end Trace

namespace Tx

/-- Signed-transaction fields relevant to deduplication. -/
structure Trx where
  tid : Nat
  expiration : Nat
deriving DecidableEq

/-- Controller state touched by `_push_transaction`: whether a pending
block exists, the transaction-dedup index (`transaction_object` entries),
and the receipt/input lists of the pending block. -/
structure TxState where
  pendingBlock : Bool
  trxIndex : List (Nat × Nat)
  receipts : List Nat
  inputTransactions : List Nat
deriving DecidableEq

/-- Embedding of `validate_uniqueness` (chain_controller.cpp:720-725):
under dup checking, finding the transaction id in the dedup index throws
`tx_duplicate`. -/
def validate_uniqueness (checkDup : Bool) (s : TxState) (trx : Trx) : Except Nat Unit :=
  if checkDup = false then .ok ()
  else if s.trxIndex.any fun e => e.1 == trx.tid then .error txDuplicate
  else .ok ()

/-- Embedding of `record_transaction` (chain_controller.cpp:727-733):
insert the transaction into the unique-transactions index. -/
def record_transaction (s : TxState) (trx : Trx) : TxState :=
  { s with trxIndex := (trx.tid, trx.expiration) :: s.trxIndex }

/-- Embedding of `_push_transaction` (chain_controller.cpp:258-312).  The
source starts a pending block when none exists (261-263), opens a
temporary session, runs `validate_referenced_accounts` and
`check_transaction_authorization` (268-269; embedded as the external
`checks` argument — their verdict is orthogonal to this claim), schedules
and applies the transaction, appends the receipt id and the input
transaction (298-303), squashes the temporary session and notifies
(306-309).  It never calls `validate_uniqueness` (defined at 720-725) nor
`record_transaction` (727-733): the dedup index is neither consulted nor
extended on this path. -/
def _push_transaction (checks : TxState → Trx → Except Nat Unit)
    (s : TxState) (trx : Trx) : Except Nat TxState :=
  let s1 := if s.pendingBlock then s else { s with pendingBlock := true }
  match checks s1 trx with
  | .error e => .error e
  | .ok () =>
    .ok { s1 with receipts := s1.receipts ++ [trx.tid],
                  inputTransactions := s1.inputTransactions ++ [trx.tid] }

/-- Validation stand-in of the C4 failing input (account and authority
checks pass). -/
def c4Checks (_s : TxState) (_t : Trx) : Except Nat Unit := .ok ()

/-- Transaction of the C4 failing input. -/
def c4Trx : Trx := { tid := 7, expiration := 100 }

/-- Fresh controller state of the C4 failing input. -/
def c4S0 : TxState :=
  { pendingBlock := false, trxIndex := [], receipts := [], inputTransactions := [] }

/-- State after the first push of the C4 failing input. -/
def c4S1 : TxState :=
  { pendingBlock := true, trxIndex := [], receipts := [7], inputTransactions := [7] }

/-- State after the second push of the C4 failing input. -/
def c4S2 : TxState :=
  { pendingBlock := true, trxIndex := [], receipts := [7, 7], inputTransactions := [7, 7] }

end Tx

namespace Pop

/-- Controller state touched by `pop_block`: the rolling head-id history
(`_db.undo` restores the previous entry), the pending-block session with
its not-yet-pushed transaction ids, and the block stores consulted by
`fetch_block_by_id`. -/
structure PopState where
  heads : List Nat
  pendingSession : Option (List Nat)
  forkDbBlocks : List Nat
  logBlocks : List Nat
deriving DecidableEq

/-- Embedding of `head_block_id` (chain_controller.cpp:922-924); the
default-constructed id of the empty chain is 0. -/
def head_block_id (s : PopState) : Nat := s.heads.headD 0

/-- Embedding of `fetch_block_by_id` as used by `pop_block`
(chain_controller.cpp:99-104, 492): the block is known when either the
fork database or the block log holds its id. -/
def fetch_block_by_id (s : PopState) (bid : Nat) : Bool :=
  s.forkDbBlocks.contains bid || s.logBlocks.contains bid

/-- Embedding of `pop_block` (chain_controller.cpp:488-497).  The first
statement resets the pending-block session — rolling back its
not-yet-pushed transactions — and only then is the head block fetched and
the `pop_empty_chain` assertion checked, so on an empty chain the error is
raised with the pending session already discarded.  The returned pair is
(raised error, state left behind), since a C++ exception leaves the
mutations made before the throw in place. -/
def pop_block (s : PopState) : Option Nat × PopState :=
  let s1 := { s with pendingSession := none }
  let headId := head_block_id s1
  if fetch_block_by_id s1 headId then
    (none, { s1 with forkDbBlocks := s1.forkDbBlocks.erase headId,
                     heads := s1.heads.tail })
  else (some popEmptyChainErr, s1)

/-- Empty-chain state with a live pending session, the C10 witness input. -/
def c10State : PopState :=
  { heads := [], pendingSession := some [41, 42], forkDbBlocks := [], logBlocks := [] }

end Pop

namespace Auth

/-- Permission level `(actor, permission)` of an authorization. -/
structure PermLevel where
  actor : Nat
  permission : Nat
deriving DecidableEq

/-- Weighted key entry of an authority. -/
structure KeyWeight where
  key : Nat
  weight : Nat
deriving DecidableEq

/-- Weighted sub-authority entry of an authority. -/
structure AcctWeight where
  level : PermLevel
  weight : Nat
deriving DecidableEq

/-- Weighted-threshold authority (spec §3: the `waits` entries play no
role in static signature verification per §4.D and are omitted). -/
structure Authority where
  threshold : Nat
  keys : List KeyWeight
  accounts : List AcctWeight
deriving DecidableEq

/-- Action fields read by `check_authorization`. -/
structure ActionData where
  scope : Nat
  name : Nat
  declaredAuths : List PermLevel
deriving DecidableEq

/-- Transaction fields read by `check_authorization`. -/
structure TrxData where
  actions : List ActionData
deriving DecidableEq

/-- Modelled from the spec (§4.D): the recursive authority checker
(`authority_checker.hpp` is not among the shipped sources).  Provided-key
weight plus sub-authority weight — counting a sub-authority when its level
is provided or recursively satisfied with a decremented depth budget, with
recursion below 0 unsatisfied — must reach the threshold. -/
def authSatisfied (getAuth : PermLevel → Authority) (keys : List Nat)
    (accts : List PermLevel) : Nat → PermLevel → Bool
  | 0, level =>
    let a := getAuth level
    let keyWeight := a.keys.foldl
      (fun acc k => if keys.contains k.key then acc + k.weight else acc) 0
    let acctWeight := a.accounts.foldl
      (fun acc sub => if accts.contains sub.level then acc + sub.weight else acc) 0
    decide (a.threshold ≤ keyWeight + acctWeight)
  | d + 1, level =>
    let a := getAuth level
    let keyWeight := a.keys.foldl
      (fun acc k => if keys.contains k.key then acc + k.weight else acc) 0
    let acctWeight := a.accounts.foldl
      (fun acc sub =>
        if accts.contains sub.level ∨ authSatisfied getAuth keys accts d sub.level
        then acc + sub.weight else acc) 0
    decide (a.threshold ≤ keyWeight + acctWeight)

/-- Environment of `check_authorization`: the permission-authority lookup
(`get_permission(p).auth`), the configured chain id and the
signature-recovery function (`signed_transaction::get_signature_keys`,
cryptography outside the shipped sources), the maximum recursion depth
from the chain configuration, the minimum-permission lookup and the
permission-ordering test (`lookup_minimum_permission` at
chain_controller.cpp:699-718 resolves through `permission_link`/
`permission` tables whose types are outside the shipped sources), the
checker's irrelevant-signature test, and the two skip flags read at lines
640 and 647. -/
structure AuthEnv where
  chainId : Nat
  recover : Nat → TrxData → List Nat
  getAuth : PermLevel → Authority
  maxDepth : Nat
  minPermOf : Nat → Nat → Nat → PermLevel
  permSatisfies : PermLevel → PermLevel → Bool
  allKeysUsedIn : List Nat → TrxData → Bool
  skipAuthCheck : Bool
  skipTrxSigs : Bool

/-- Body of the inner loop of `check_authorization`
(chain_controller.cpp:635-652) for one declared authorization: unless
`skip_authority_check`, the declared permission must satisfy the minimum
permission for the action (`tx_irrelevant_auth`); unless
`skip_transaction_signatures`, the checker must satisfy the declared
authority (`tx_missing_sigs`). -/
def checkDeclaredAuth (env : AuthEnv) (keys : List Nat) (accts : List PermLevel)
    (scope act : Nat) (da : PermLevel) : Except Nat Unit :=
  if env.skipAuthCheck = false ∧
      env.permSatisfies da (env.minPermOf da.actor scope act) = false then
    .error txIrrelevantAuth
  else if env.skipTrxSigs = false ∧
      authSatisfied env.getAuth keys accts env.maxDepth da = false then
    .error txMissingSigs
  else .ok ()

/-- Inner loop of `check_authorization` over one action's declared
authorizations. -/
def checkAuthList (env : AuthEnv) (keys : List Nat) (accts : List PermLevel)
    (scope act : Nat) : List PermLevel → Except Nat Unit
  | [] => .ok ()
  | da :: rest =>
    match checkDeclaredAuth env keys accts scope act da with
    | .error e => .error e
    | .ok () => checkAuthList env keys accts scope act rest

/-- Outer loop of `check_authorization` over the transaction's actions. -/
def checkActions (env : AuthEnv) (keys : List Nat) (accts : List PermLevel) :
    List ActionData → Except Nat Unit
  | [] => .ok ()
  | act :: rest =>
    match checkAuthList env keys accts act.scope act.name act.declaredAuths with
    | .error e => .error e
    | .ok () => checkActions env keys accts rest

/-- Embedding of `check_authorization` (chain_controller.cpp:624-659):
loop over every declared authority of every action, then — unless unused
signatures are allowed or signature checking is skipped — require that no
provided key was irrelevant (`tx_irrelevant_sig`). -/
def check_authorization (env : AuthEnv) (trx : TrxData) (providedKeys : List Nat)
    (allowUnusedSignatures : Bool) (providedAccounts : List PermLevel) :
    Except Nat Unit :=
  match checkActions env providedKeys providedAccounts trx.actions with
  | .error e => .error e
  | .ok () =>
    if allowUnusedSignatures = false ∧ env.skipTrxSigs = false ∧
        env.allKeysUsedIn providedKeys trx = false then .error txIrrelevantSig
    else .ok ()

/-- Embedding of `check_transaction_authorization`
(chain_controller.cpp:661-665).  The source passes `get_signature_keys` a
default-constructed `chain_id_type` — a zeroed chain id, embedded as 0 —
and not the controller's chain id: the
environment's configured `chainId` is ignored on this path.  The
provided-accounts argument defaults to the empty set. -/
def check_transaction_authorization (env : AuthEnv) (trx : TrxData)
    (allowUnusedSignatures : Bool) : Except Nat Unit :=
  check_authorization env trx (env.recover 0 trx) allowUnusedSignatures []

/-- Reading of the claim (and of the spec sentence it quotes): the signing
digest incorporates the chain's actual chain id, so key recovery consults
`env.chainId`. -/
def check_transaction_authorization_claim (env : AuthEnv) (trx : TrxData)
    (allowUnusedSignatures : Bool) : Except Nat Unit :=
  check_authorization env trx (env.recover env.chainId trx) allowUnusedSignatures []

/-- Key recovery of the C6 counterexample: the signatures check out under
chain id 1 (the chain's configured id) and under no other id. -/
def c6Recover (cid : Nat) (_t : TrxData) : List Nat := if cid = 1 then [5] else []

/-- Authority table of the C6 counterexample: every permission is a 1-of-1
key authority over key 5. -/
def c6Auth (_l : PermLevel) : Authority :=
  { threshold := 1, keys := [{ key := 5, weight := 1 }], accounts := [] }

/-- Environment of the C6 counterexample: configured chain id 1, no skip
flags. -/
def c6Env : AuthEnv :=
  { chainId := 1
    recover := c6Recover
    getAuth := c6Auth
    maxDepth := 2
    minPermOf := fun a _ _ => { actor := a, permission := 0 }
    permSatisfies := fun _ _ => true
    allKeysUsedIn := fun _ _ => true
    skipAuthCheck := false
    skipTrxSigs := false }

/-- Transaction of the C6 counterexample: one action declaring one
authorization. -/
def c6Trx : TrxData :=
  { actions := [{ scope := 3, name := 4, declaredAuths := [{ actor := 8, permission := 0 }] }] }

/-- Environment of the C6 amended-claim witness: the signatures check out
under the default chain id 0 (and under no other), so the source
succeeds although the configured chain id is 9. -/
def c6WEnv : AuthEnv :=
  { chainId := 9
    recover := fun cid _ => if cid = 0 then [5] else []
    getAuth := c6Auth
    maxDepth := 2
    minPermOf := fun a _ _ => { actor := a, permission := 0 }
    permSatisfies := fun _ _ => true
    allKeysUsedIn := fun _ _ => true
    skipAuthCheck := false
    skipTrxSigs := false }

end Auth

namespace Ctrl

/-- Error code for a fork-database lookup miss. -/
def unknownBlockErr : Nat := 9

/-- Block fields the fork-switch logic reads: `id()`, `previous`,
`block_num()` and the signing producer. -/
structure CBlock where
  bid : Nat
  previous : Nat
  blockNum : Nat
  producer : Nat
deriving DecidableEq

/-- Snapshot of the chainbase state as the fork-switch logic observes it:
the dynamic head fields, the producer objects' confirmation numbers
(`last_confirmed_block_num` keyed by owner), and the stored
`last_irreversible_block_num`. -/
structure ChainSt where
  headNum : Nat
  headId : Nat
  confs : List (Nat × Nat)
  lib : Nat
deriving DecidableEq

/-- Current chainbase snapshot at the top of the undo stack.  The stack
models the spec's store contract (§4.C — the store itself is not among the
shipped sources): each pushed session is one snapshot, `undo` rewinds the
most recent one, and on an empty stack the reads return the
default-initialised state. -/
def currentState (hist : List ChainSt) : ChainSt :=
  hist.headD { headNum := 0, headId := 0, confs := [], lib := 0 }

/-- Modelled from the spec (§4.B): the fork database
(`fork_database.cpp` is not among the shipped sources) holds the
unconfirmed blocks and a head pointer. -/
structure ForkDB where
  items : List CBlock
  head : Option CBlock
deriving DecidableEq

/-- Modelled from the spec: `fork_database::push_block` inserts the block
and updates the head when the new block overtakes it; a same-height block
leaves the head in place (the source comment at
chain_controller.cpp:179-180 relies on getting the old head back).
Returns the database together with its head after the push, which is what
`_push_block` binds as `new_head`. -/
def fdbPush (fd : ForkDB) (b : CBlock) : ForkDB × CBlock :=
  let items := if fd.items.any (fun x => x.bid == b.bid) then fd.items else b :: fd.items
  let head := match fd.head with
    | none => b
    | some h => if h.blockNum < b.blockNum then b else h
  ({ items := items, head := some head }, head)

/-- Modelled from the spec: `fork_database::remove(id)` erases the block
with that id. -/
def fdbRemove (fd : ForkDB) (bid : Nat) : ForkDB :=
  { items := fd.items.filter (fun x => x.bid != bid), head := fd.head }

/-- Modelled from the spec: `fork_database::set_head`. -/
def fdbSetHead (fd : ForkDB) (b : CBlock) : ForkDB :=
  { items := fd.items, head := some b }

/-- Lookup of a block by id in the fork database. -/
def fdbFind (fd : ForkDB) (bid : Nat) : Option CBlock :=
  fd.items.find? (fun x => x.bid == bid)

/-- Modelled from the spec: `fork_database::pop_block` removes the current
head and makes its parent (when still stored) the head. -/
def fdbPop (fd : ForkDB) : ForkDB :=
  match fd.head with
  | none => fd
  | some h => { items := fd.items.filter (fun x => x.bid != h.bid),
                head := fdbFind fd h.previous }

/-- Modelled from the spec (§4.B): the walk of `fetch_branch_from(a, b)` —
both branches tip-to-root until they meet at the common ancestor, each
returned tip-first so that the last element of each side is the child of
the common ancestor; a missing parent link fails with
`no_common_ancestor`.  Fuel-bounded; the walk shortens the taller side
each step. -/
def fetchBranchLoop (items : List CBlock) :
    Nat → CBlock → CBlock → List CBlock → List CBlock →
    Except Nat (List CBlock × List CBlock)
  | 0, _, _, _, _ => .error noCommonAncestorErr
  | fuel + 1, a, b, accA, accB =>
    if a.bid = b.bid then .ok (accA, accB)
    else if b.blockNum < a.blockNum then
      match items.find? (fun x => x.bid == a.previous) with
      | none => .error noCommonAncestorErr
      | some pa => fetchBranchLoop items fuel pa b (accA ++ [a]) accB
    else if a.blockNum < b.blockNum then
      match items.find? (fun x => x.bid == b.previous) with
      | none => .error noCommonAncestorErr
      | some pb => fetchBranchLoop items fuel a pb accA (accB ++ [b])
    else
      match items.find? (fun x => x.bid == a.previous),
            items.find? (fun x => x.bid == b.previous) with
      | some pa, some pb => fetchBranchLoop items fuel pa pb (accA ++ [a]) (accB ++ [b])
      | none, _ => .error noCommonAncestorErr
      | some _, none => .error noCommonAncestorErr

/-- Modelled from the spec: `fork_database::fetch_branch_from` on the two
block ids, both of which must be known. -/
def fetch_branch_from (fd : ForkDB) (fuel : Nat) (firstId secondId : Nat) :
    Except Nat (List CBlock × List CBlock) :=
  match fdbFind fd firstId, fdbFind fd secondId with
  | some a, some b => fetchBranchLoop fd.items fuel a b [] []
  | none, _ => .error unknownBlockErr
  | some _, none => .error unknownBlockErr

/-- One `pop_block()` as invoked from the fork-switch loops
(chain_controller.cpp:186-187 and 209-210): the fork database pops its
head and the store undoes the most recent session (the pending session is
already cleared on this path by `without_pending_transactions`). -/
def popBlockOnce (fd : ForkDB) (hist : List ChainSt) : ForkDB × List ChainSt :=
  (fdbPop fd, hist.tail)

/-- Pop loop `while (head_block_id() != target) pop_block()` of the
switch (chain_controller.cpp:186-187, 209-210), fuel-bounded. -/
def popUntil : Nat → Nat → ForkDB → List ChainSt → ForkDB × List ChainSt
  | 0, _, fd, hist => (fd, hist)
  | fuel + 1, target, fd, hist =>
    if (currentState hist).headId = target then (fd, hist)
    else
      let popped := popBlockOnce fd hist
      popUntil fuel target popped.1 popped.2

/-- Apply loop over a branch in parent-to-child order (the reverse
iteration at chain_controller.cpp:190-197 and 213-217): each block is
applied under a fresh undo session that is pushed on success; on failure
the loop stops, returning the raised error together with the blocks not
successfully applied — failing block first — which is exactly the iterator
range the removal loop at lines 202-205 erases. -/
def applyBranchBlocks (applyB : ChainSt → CBlock → Except Nat ChainSt) :
    List ChainSt → List CBlock → Option (Nat × List CBlock) × List ChainSt
  | hist, [] => (none, hist)
  | hist, b :: rest =>
    match applyB (currentState hist) b with
    | .ok s => applyBranchBlocks applyB (s :: hist) rest
    | .error e => (some (e, b :: rest), hist)

/-- Embedding of the fork-switch block of `_push_block`
(chain_controller.cpp:181-221): fetch both branches, pop to the common
ancestor, apply the new branch parent-to-child pushing each session.  On a
mid-switch failure (198-219): remove the failing block and the rest of the
new branch from the fork database, reset the fork head to the old tip, pop
back to the common ancestor, re-apply the old branch, and re-raise the
original error (a failure during the re-application propagates instead,
as in the source, where the restore loop has no handler). -/
def switchForks (applyB : ChainSt → CBlock → Except Nat ChainSt) (fuel : Nat)
    (fd : ForkDB) (hist : List ChainSt) (newHeadId : Nat) :
    Option Nat × ForkDB × List ChainSt :=
  match fetch_branch_from fd fuel newHeadId (currentState hist).headId with
  | .error e => (some e, fd, hist)
  | .ok (branchNew, branchOld) =>
    let target := (branchOld.getLast?.map CBlock.previous).getD 0
    let c1 := popUntil fuel target fd hist
    match applyBranchBlocks applyB c1.2 branchNew.reverse with
    | (none, h2) => (none, c1.1, h2)
    | (some (e, rem), h2) =>
      let fd1 := rem.foldl (fun f b => fdbRemove f b.bid) c1.1
      let fd2 := match branchOld.head? with
        | some oldTip => fdbSetHead fd1 oldTip
        | none => fd1
      let c3 := popUntil fuel target fd2 h2
      match applyBranchBlocks applyB c3.2 branchOld.reverse with
      | (none, h4) => (some e, c3.1, h4)
      | (some (e2, _), h4) => (some e2, c3.1, h4)

/-- Embedding of `_push_block` (chain_controller.cpp:169-238).  Returns
(raised error, whether the fork-switch path was taken, fork database and
undo stack left behind).  Under `skip_fork_db` the block is applied
directly; otherwise it is fed to the fork database, and: if the resulting
head does not build on the current head and is strictly higher, the fork
switch runs (181-222); if it does not build on the current head and is
not higher, nothing happens and the result is false (223); otherwise the
block is applied under a session that is pushed on success, while on
failure the block is removed from the fork database and the error is
re-raised (227-235, 237). -/
def _push_block (applyB : ChainSt → CBlock → Except Nat ChainSt) (fuel : Nat)
    (skipForkDb : Bool) (fd : ForkDB) (hist : List ChainSt) (nb : CBlock) :
    Option Nat × Bool × ForkDB × List ChainSt :=
  if skipForkDb then
    match applyB (currentState hist) nb with
    | .ok s => (none, false, fd, s :: hist)
    | .error e => (some e, false, fdbRemove fd nb.bid, hist)
  else
    let pushed := fdbPush fd nb
    if ¬ pushed.2.previous = (currentState hist).headId then
      if (currentState hist).headNum < pushed.2.blockNum then
        let r := switchForks applyB fuel pushed.1 hist pushed.2.bid
        (r.1, true, r.2)
      else (none, false, pushed.1, hist)
    else
      match applyB (currentState hist) nb with
      | .ok s => (none, false, pushed.1, s :: hist)
      | .error e => (some e, false, fdbRemove pushed.1 nb.bid, hist)

/-- Embedding of the public `push_block` (chain_controller.cpp:158-167):
declared `void`, it discards the boolean `_push_block` computes — even
though its own doc comment at lines 152-157 documents `@return true if we
switched forks`.  The caller receives only the raised error (if any) and
the new controller state. -/
def push_block (applyB : ChainSt → CBlock → Except Nat ChainSt) (fuel : Nat)
    (skipForkDb : Bool) (fd : ForkDB) (hist : List ChainSt) (nb : CBlock) :
    Option Nat × ForkDB × List ChainSt :=
  let r := _push_block applyB fuel skipForkDb fd hist nb
  (r.1, r.2.2)

/-- Concrete block application for the C2 counterexample and the C7
scenarios, composing the pieces of `_apply_block` that touch the fields of
`ChainSt`: `validate_block_header`'s previous-id check
(chain_controller.cpp:791), `update_global_dynamic_data`'s head update
(1116-1121), `update_signing_producer`'s confirmation update (1143-1147),
and `update_last_irreversible_block`'s guarded advance of the stored LIB
(1163-1175) with threshold 66% (for the two producers used here the
selection index is 0: the smaller confirmation).  The block-log, schedule
and commit effects of the latter do not feed back into these fields and
are carried by `Lib.update_last_irreversible_block`. -/
def applyBlockC (s : ChainSt) (b : CBlock) : Except Nat ChainSt :=
  if s.headId = b.previous then
    let confs := s.confs.map fun pc =>
      if pc.1 == b.producer then (pc.1, b.blockNum) else pc
    let cand := (Lib.sortNat (confs.map Prod.snd)).getD
      (Lib.eosPercent confs.length (100 - 66)) 0
    .ok { headNum := b.blockNum, headId := b.bid, confs := confs,
          lib := if s.lib < cand then cand else s.lib }
  else .error blockValidateErr

/-- Canonical blocks 5 and 6 of the C2/C7 scenario, produced by producers
1 and 2 in turn. -/
def c2B5 : CBlock := { bid := 105, previous := 104, blockNum := 5, producer := 1 }

/-- Canonical block 6 of the C2/C7 scenario. -/
def c2B6 : CBlock := { bid := 106, previous := 105, blockNum := 6, producer := 2 }

/-- Competing block 6 of the C2/C7 scenario: same height as the head,
child of block 5, produced by producer 1. -/
def c2B6x : CBlock := { bid := 206, previous := 105, blockNum := 6, producer := 1 }

/-- Competing block 7 of the C2/C7 scenario: child of the competing block
6, overtaking the canonical head. -/
def c2B7x : CBlock := { bid := 207, previous := 206, blockNum := 7, producer := 1 }

/-- Plain extension block 7 of the C7 scenario: child of the canonical
head. -/
def c2B7d : CBlock := { bid := 307, previous := 106, blockNum := 7, producer := 1 }

/-- Chain snapshot at block 4 of the C2/C7 scenario. -/
def c2S4 : ChainSt := { headNum := 4, headId := 104, confs := [(1, 3), (2, 4)], lib := 3 }

/-- Chain snapshot after block 5: producer 1 confirmed up to 5, LIB 4. -/
def c2S5 : ChainSt := { headNum := 5, headId := 105, confs := [(1, 5), (2, 4)], lib := 4 }

/-- Chain snapshot after block 6: producer 2 confirmed up to 6, LIB 5. -/
def c2S6 : ChainSt := { headNum := 6, headId := 106, confs := [(1, 5), (2, 6)], lib := 5 }

/-- Chain snapshot after the competing block 6: the undo of canonical
block 6 has restored confirmations (1,5),(2,4) and LIB 4, and applying the
competing block leaves LIB at 4. -/
def c2S6x : ChainSt := { headNum := 6, headId := 206, confs := [(1, 6), (2, 4)], lib := 4 }

/-- Chain snapshot after the competing block 7: LIB still 4. -/
def c2S7x : ChainSt := { headNum := 7, headId := 207, confs := [(1, 7), (2, 4)], lib := 4 }

/-- Fork database before the C2 counterexample pushes: canonical blocks 5
and 6 (block 4 and older were trimmed by `set_max_size`), head at block
6. -/
def c2Fdb0 : ForkDB := { items := [c2B6, c2B5], head := some c2B6 }

/-- Undo stack before the C2 counterexample pushes: snapshots of blocks
6, 5 and 4; `commit(5)` has made everything below block 5 permanent but
the sessions of blocks 5 and 6 are still rewindable. -/
def c2Hist0 : List ChainSt := [c2S6, c2S5, c2S4]

/-- Fork database after pushing the competing block 6 (no switch). -/
def c2Fdb1 : ForkDB := { items := [c2B6x, c2B6, c2B5], head := some c2B6 }

/-- Fork database after the completed fork switch to the competing branch:
while rewinding, the switch's `pop_block` popped the then fork-database
head — the just-pushed competing block 7 — off the database, reparenting
the head to the competing block 6. -/
def c2Fdb2 : ForkDB := { items := [c2B6x, c2B6, c2B5], head := some c2B6x }

/-- Undo stack after the completed fork switch. -/
def c2Hist2 : List ChainSt := [c2S7x, c2S6x, c2S5, c2S4]

/-- Block application of the C1 witness: producer 99 marks the block
crafted to fail mid-switch; other blocks chain on the previous id. -/
def c1Apply (s : ChainSt) (b : CBlock) : Except Nat ChainSt :=
  if b.producer == 99 then .error 42
  else if s.headId = b.previous then
    .ok { headNum := b.blockNum, headId := b.bid, confs := s.confs, lib := s.lib }
  else .error blockValidateErr

/-- Common-ancestor block of the C1 witness. -/
def c1B4 : CBlock := { bid := 104, previous := 103, blockNum := 4, producer := 1 }

/-- Branch-X block of the C1 witness. -/
def c1B5 : CBlock := { bid := 105, previous := 104, blockNum := 5, producer := 1 }

/-- First branch-Y block of the C1 witness. -/
def c1B5y : CBlock := { bid := 205, previous := 104, blockNum := 5, producer := 1 }

/-- Second branch-Y block of the C1 witness, crafted to fail. -/
def c1B6y : CBlock := { bid := 206, previous := 205, blockNum := 6, producer := 99 }

/-- Common-ancestor snapshot of the C1 witness. -/
def c1S4 : ChainSt := { headNum := 4, headId := 104, confs := [], lib := 0 }

/-- Branch-X snapshot of the C1 witness. -/
def c1S5 : ChainSt := { headNum := 5, headId := 105, confs := [], lib := 0 }

/-- Mid-branch-Y snapshot of the C1 witness. -/
def c1S5y : ChainSt := { headNum := 5, headId := 205, confs := [], lib := 0 }

/-- Fork database of the C1 witness before the failing push: branch X
applied, branch-Y block 5 already received (without triggering a switch,
being of equal height). -/
def c1Fdb0 : ForkDB := { items := [c1B5y, c1B5, c1B4], head := some c1B5 }

/-- Undo stack of the C1 witness before the failing push. -/
def c1Hist0 : List ChainSt := [c1S5, c1S4]

end Ctrl

end Eos

namespace Eos

namespace Lib

/-- Helper: the erase loop never exits once its front entry activates at or
above `newLib` while the list is nonempty. -/
theorem eraseLoop_stuck (a sch newLib : Nat) (rest : List (Nat × Nat))
    (h : ¬ a < newLib) : ∀ fuel, eraseLoop fuel ((a, sch) :: rest) newLib = none := by
  intro fuel
  induction fuel with
  | zero => rfl
  | succ n ih => simp [eraseLoop, h, ih]

/-- Helper characterisation of a completed
`update_last_irreversible_block`: the LIB becomes the maximum of its old
value and the candidate, the newly irreversible blocks are appended, and
the commit is recorded. -/
theorem updateLib_spec (fuel : Nat) (s s' : LibState)
    (h : update_last_irreversible_block fuel s = some s') :
    s'.lib = max s.lib (libCandidate s)
    ∧ s'.blockLog = s.blockLog ++ List.range' (lastBlockOnDisk s.blockLog + 1)
        (libCandidate s - lastBlockOnDisk s.blockLog)
    ∧ s'.commitCalls = s.commitCalls ++ [libCandidate s] := by
  unfold update_last_irreversible_block at h
  simp only at h
  by_cases hlib : s.lib < libCandidate s
  · by_cases hdisk : lastBlockOnDisk s.blockLog < libCandidate s
    · simp only [hlib, hdisk, if_true] at h
      rcases hm : latestPendingSchedule s.pendingSchedules (libCandidate s) with _ | sch <;>
        rw [hm] at h
      · injection h with h
        subst h
        exact ⟨(Nat.max_eq_right hlib.le).symm, rfl, rfl⟩
      · rcases he : eraseLoop fuel s.pendingSchedules (libCandidate s) with _ | rest <;>
          rw [he] at h
        · exact Option.noConfusion h
        · injection h with h
          subst h
          exact ⟨(Nat.max_eq_right hlib.le).symm, rfl, rfl⟩
    · simp only [hlib, hdisk, if_true, if_false] at h
      injection h with h
      subst h
      refine ⟨(Nat.max_eq_right hlib.le).symm, ?_, rfl⟩
      rw [Nat.sub_eq_zero_of_le (Nat.le_of_not_lt hdisk)]
      simp
  · by_cases hdisk : lastBlockOnDisk s.blockLog < libCandidate s
    · simp only [hlib, hdisk, if_true, if_false] at h
      rcases hm : latestPendingSchedule s.pendingSchedules (libCandidate s) with _ | sch <;>
        rw [hm] at h
      · injection h with h
        subst h
        exact ⟨(Nat.max_eq_left (Nat.le_of_not_lt hlib)).symm, rfl, rfl⟩
      · rcases he : eraseLoop fuel s.pendingSchedules (libCandidate s) with _ | rest <;>
          rw [he] at h
        · exact Option.noConfusion h
        · injection h with h
          subst h
          exact ⟨(Nat.max_eq_left (Nat.le_of_not_lt hlib)).symm, rfl, rfl⟩
    · simp only [hlib, hdisk, if_false] at h
      injection h with h
      subst h
      refine ⟨(Nat.max_eq_left (Nat.le_of_not_lt hlib)).symm, ?_, rfl⟩
      rw [Nat.sub_eq_zero_of_le (Nat.le_of_not_lt hdisk)]
      simp

/-- Helper: a completed `update_last_irreversible_block` never decreases
the stored LIB. -/
theorem updateLib_mono (fuel : Nat) (s s' : LibState)
    (h : update_last_irreversible_block fuel s = some s') : s.lib ≤ s'.lib := by
  rw [(updateLib_spec fuel s s' h).1]
  exact Nat.le_max_left _ _

/-- C3: whenever `update_last_irreversible_block` completes, the candidate
LIB is the element at index `(100 − irreversible_threshold_percent)·L/100`
(counting from 0) of the sorted `last_confirmed_block_num` sequence of the
`L` active producers; the stored LIB advances to the candidate exactly when
the candidate exceeds it (`max`), the newly irreversible blocks
`disk+1 .. candidate` are appended to the block log (an empty range when
nothing is newly irreversible), and `_db.commit(candidate)` is called. -/
theorem c3_update_lib_characterisation (fuel : Nat) (s s' : LibState)
    (h : update_last_irreversible_block fuel s = some s') :
    s'.lib = max s.lib (libCandidate s)
    ∧ s'.blockLog = s.blockLog ++ List.range' (lastBlockOnDisk s.blockLog + 1)
        (libCandidate s - lastBlockOnDisk s.blockLog)
    ∧ s'.commitCalls = s.commitCalls ++ [libCandidate s] :=
  updateLib_spec fuel s s' h

/-- C2 amended: along every sequence of controller operations in which the
stored `last_irreversible_block_num` is written only by
`update_last_irreversible_block` — its sole assignment site in the source
— and is otherwise left unchanged, the stored value never decreases.  (The
counterexample shows the original claim fails for `push_block`: a fork
switch pops blocks, and the store's undo rewinds the field to an earlier
snapshot.) -/
theorem c2_lib_monotone_without_pops (s s' : LibState)
    (h : Relation.ReflTransGen LibStep s s') : s.lib ≤ s'.lib := by
  induction h with
  | refl => exact Nat.le_refl _
  | tail _ hstep ih =>
    cases hstep with
    | updateIrr fuel a b hupd => exact Nat.le_trans ih (updateLib_mono fuel _ _ hupd)
    | preserves a b heq => exact heq ▸ ih

/-- Witness for C2's amended statement: an `update_last_irreversible_block`
step followed by a LIB-preserving step never decreases the stored LIB. -/
theorem c2_lib_monotone_witness : c2w0.lib ≤ c2w2.lib :=
  c2_lib_monotone_without_pops c2w0 c2w2
    ((Relation.ReflTransGen.refl.tail
        (LibStep.updateIrr 1 c2w0 c2w1 (by decide))).tail
      (LibStep.preserves c2w1 c2w2 (by decide)))

/-- Witness for C3: the spec's concrete scenario — 21 producers at
threshold 66%, the selected confirmation number rising from 10 to 15 —
advances the LIB to 15, appends blocks 11..15 to the block log, and calls
`commit 15`. -/
theorem c3_update_lib_witness :
    update_last_irreversible_block 1 c3State = some c3StateAfter ∧
    (c3StateAfter.lib = max c3State.lib (libCandidate c3State)
      ∧ c3StateAfter.blockLog = c3State.blockLog ++
          List.range' (lastBlockOnDisk c3State.blockLog + 1)
            (libCandidate c3State - lastBlockOnDisk c3State.blockLog)
      ∧ c3StateAfter.commitCalls = c3State.commitCalls ++ [libCandidate c3State]) :=
  ⟨by decide, c3_update_lib_characterisation 1 c3State c3StateAfter (by decide)⟩

/-- C9: the pending-schedule erase loop does not terminate when an entry
with `activation_block ≥ new_lib` remains behind the erased prefix — on
the failing input (candidate 10, pending activations 5 and 20) the loop at
chain_controller.cpp:1206-1210 erases the first entry and then spins
forever on the second, so `update_last_irreversible_block` diverges for
every amount of fuel and the commit is never reached. -/
theorem c9_update_lib_pending_erase_diverges :
    ∀ fuel : Nat, update_last_irreversible_block fuel c9State = none := by
  intro fuel
  unfold update_last_irreversible_block
  simp only
  have hcand : libCandidate c9State = 10 := by decide
  rw [hcand]
  have hmatch : latestPendingSchedule c9State.pendingSchedules 10 = some 1 := by decide
  have hdisk : lastBlockOnDisk c9State.blockLog < 10 := by decide
  have hlib : c9State.lib < 10 := by decide
  simp only [hlib, hdisk, if_true, hmatch]
  have hstate : c9State.pendingSchedules = [(5, 1), (20, 2)] := rfl
  have : ∀ f : Nat, eraseLoop f [(5, 1), (20, 2)] 10 = none := by
    intro f
    cases f with
    | zero => rfl
    | succ n =>
      show eraseLoop n [(20, 2)] 10 = none
      exact eraseLoop_stuck 20 2 10 [] (by decide) n
  rw [hstate, this fuel]
  rfl

end Lib

namespace Header

/-- C5: with the scheduled producer's object present in the database,
`validate_block_header` accepts a block exactly when its `previous` equals
the head id, its timestamp strictly exceeds the head time, it carries
`new_producers` only at a start-of-round height, its signature verifies
under the scheduled producer's signing key unless that check is skipped,
its `producer` field names the scheduled producer unless that check is
skipped, and its `transaction_mroot` equals the recomputed merkle root of
its input transactions. -/
theorem c5_validate_block_header_iff (calcTxMroot : List Nat → Nat)
    (s : HState) (skipSig skipSched : Bool) (nb : BlockData) (p : ProducerObj)
    (hp : get_producer s (get_scheduled_producer s (get_slot_at_time s nb.timestamp))
      = some p) :
    (validate_block_header calcTxMroot s skipSig skipSched nb).isOk = true
      ↔ (s.headBlockId = nb.previous
        ∧ s.headBlockTime < nb.timestamp
        ∧ (nb.blockNum % s.blocksPerRound = 0 ∨ nb.newProducers = none)
        ∧ (skipSig = true ∨ nb.signee = p.signingKey)
        ∧ (skipSched = true ∨ nb.producer = p.owner)
        ∧ calcTxMroot nb.inputTransactions = nb.transactionMroot) := by
  unfold validate_block_header
  rw [hp]
  by_cases h1 : s.headBlockId = nb.previous
  case neg => simp [h1, Except.isOk, Except.toBool]
  by_cases h2 : s.headBlockTime < nb.timestamp
  case neg => simp [h1, h2, Except.isOk, Except.toBool]
  by_cases h34 : ¬ nb.blockNum % s.blocksPerRound = 0 ∧ ¬ nb.newProducers = none
  case pos => simp [h34.1, h34.2, Except.isOk, Except.toBool]
  by_cases h5 : skipSig = false ∧ ¬ nb.signee = p.signingKey
  case pos => simp [h34, h5.1, h5.2, Except.isOk, Except.toBool]
  by_cases h7 : skipSched = false ∧ ¬ nb.producer = p.owner
  case pos => simp [h34, h5, h7.1, h7.2, Except.isOk, Except.toBool]
  by_cases h9 : calcTxMroot nb.inputTransactions = nb.transactionMroot
  case neg => simp [h34, h5, h7, h9, Except.isOk, Except.toBool]
  have h3or : nb.blockNum % s.blocksPerRound = 0 ∨ nb.newProducers = none := by
    rcases not_and_or.mp h34 with h | h
    · exact Or.inl (not_not.mp h)
    · exact Or.inr (not_not.mp h)
  have h5or : skipSig = true ∨ nb.signee = p.signingKey := by
    rcases not_and_or.mp h5 with h | h
    · exact Or.inl (by simpa using h)
    · exact Or.inr (not_not.mp h)
  have h7or : skipSched = true ∨ nb.producer = p.owner := by
    rcases not_and_or.mp h7 with h | h
    · exact Or.inl (by simpa using h)
    · exact Or.inr (not_not.mp h)
  simp [h34, h5, h7, h9, h1, h2, h3or, h5or, h7or, Except.isOk, Except.toBool]

/-- Witness for C5: a concrete well-formed block is accepted, and the
acceptance conditions hold at it. -/
theorem c5_validate_block_header_witness :
    get_producer c5State
        (get_scheduled_producer c5State (get_slot_at_time c5State c5Block.timestamp))
      = some { owner := 7, signingKey := 42 } ∧
    ((validate_block_header c5Mroot c5State false false c5Block).isOk = true
      ↔ (c5State.headBlockId = c5Block.previous
        ∧ c5State.headBlockTime < c5Block.timestamp
        ∧ (c5Block.blockNum % c5State.blocksPerRound = 0 ∨ c5Block.newProducers = none)
        ∧ (false = true ∨ c5Block.signee = (42 : Nat))
        ∧ (false = true ∨ c5Block.producer = (7 : Nat))
        ∧ c5Mroot c5Block.inputTransactions = c5Block.transactionMroot)) :=
  ⟨by decide,
   c5_validate_block_header_iff c5Mroot c5State false false c5Block
     { owner := 7, signingKey := 42 } (by decide)⟩

end Header

namespace Trace

/-- Counterexample for C8: a receipt sitting in shard index 1 of a cycle
produces an action trace whose `shard_index` is 0 — `_apply_transaction`
stamps only `region_id` and `cycle_index` (chain_controller.cpp:1306-1309)
and leaves `shard_index` as the execution produced it, so the trace does
not identify the shard its receipt appears in. -/
theorem c8_shard_index_not_stamped :
    applyCycleShards c8Exec c8TxActions 4 2 [[], [7]]
      = [[], [{ receiver := 9, regionId := 4, cycleIndex := 2, shardIndex := 0 }]]
    ∧ ({ receiver := 9, regionId := 4, cycleIndex := 2, shardIndex := 0 }
        : ActionTrace).shardIndex ≠ 1 := by
  exact ⟨rfl, by decide⟩

/-- C8 amended: every action trace produced by `_apply_transaction`
carries the `region_id` and `cycle_index` of the receipt being applied;
the `shard_index` is not stamped. -/
theorem c8_region_cycle_stamped (execAction : Nat → List ActionTrace)
    (meta : TransMeta) (t : ActionTrace) (h : t ∈ _apply_transaction execAction meta) :
    t.regionId = meta.regionId ∧ t.cycleIndex = meta.cycleIndex := by
  unfold _apply_transaction at h
  simp only [List.mem_map] at h
  obtain ⟨u, _, rfl⟩ := h
  exact ⟨rfl, rfl⟩

/-- Witness for C8's amended statement at a concrete trace. -/
theorem c8_region_cycle_stamped_witness :
    ({ receiver := 9, regionId := 4, cycleIndex := 2, shardIndex := 0 } : ActionTrace)
        ∈ _apply_transaction c8Exec
            { regionId := 4, cycleIndex := 2, shardIndex := 1, actions := [0] } ∧
    (({ receiver := 9, regionId := 4, cycleIndex := 2, shardIndex := 0 }
        : ActionTrace).regionId = 4
      ∧ ({ receiver := 9, regionId := 4, cycleIndex := 2, shardIndex := 0 }
        : ActionTrace).cycleIndex = 2) :=
  ⟨by decide,
   c8_region_cycle_stamped c8Exec
     { regionId := 4, cycleIndex := 2, shardIndex := 1, actions := [0] }
     { receiver := 9, regionId := 4, cycleIndex := 2, shardIndex := 0 } (by decide)⟩

end Trace

namespace Tx

/-- C4: pushing the same transaction twice succeeds twice —
`_push_transaction` neither consults nor extends the dedup index (the
functions `validate_uniqueness` and `record_transaction` exist in the
source but are never called), so the second push is not rejected with
`tx_duplicate`; the last conjunct shows that the recording the claim
describes would indeed have made `validate_uniqueness` reject the second
push. -/
theorem c4_duplicate_not_rejected :
    _push_transaction c4Checks c4S0 c4Trx = .ok c4S1
    ∧ _push_transaction c4Checks c4S1 c4Trx = .ok c4S2
    ∧ c4S2.trxIndex = []
    ∧ validate_uniqueness true (record_transaction c4S1 c4Trx) c4Trx
        = .error txDuplicate :=
  ⟨rfl, rfl, rfl, rfl⟩

end Tx

namespace Pop

/-- C10: `pop_block` resets the pending-block session before checking that
a head block exists, so on an empty chain it raises `pop_empty_chain`
while the pending, not-yet-pushed transactions have already been
discarded — the failing call is not atomic with respect to the pending
state. -/
theorem c10_pop_resets_pending_before_check (s : PopState) (p : List Nat)
    (hp : s.pendingSession = some p)
    (hempty : fetch_block_by_id s (head_block_id s) = false) :
    pop_block s = (some popEmptyChainErr, { s with pendingSession := none })
    ∧ (pop_block s).2.pendingSession ≠ s.pendingSession := by
  have hfetch : fetch_block_by_id { s with pendingSession := none }
      (head_block_id { s with pendingSession := none }) = false := hempty
  constructor
  · unfold pop_block
    simp only [hfetch, Bool.false_eq_true, if_false]
  · unfold pop_block
    simp only [hfetch, Bool.false_eq_true, if_false, hp]
    exact fun hcontra => Option.noConfusion hcontra

/-- Witness for C10: popping the empty chain with a pending session
discards the session and raises `pop_empty_chain`. -/
theorem c10_pop_resets_pending_witness :
    c10State.pendingSession = some [41, 42] ∧
    (pop_block c10State
        = (some popEmptyChainErr, { c10State with pendingSession := none })
      ∧ (pop_block c10State).2.pendingSession ≠ c10State.pendingSession) :=
  ⟨rfl, c10_pop_resets_pending_before_check c10State [41, 42] rfl (by decide)⟩

end Pop

namespace Auth

/-- Helper: a successful inner loop means every declared authorization of
the list passed its per-authorization checks. -/
theorem checkAuthList_ok_mem (env : AuthEnv) (keys : List Nat)
    (accts : List PermLevel) (scope act : Nat) (das : List PermLevel)
    (da : PermLevel) (hmem : da ∈ das)
    (h : checkAuthList env keys accts scope act das = .ok ()) :
    checkDeclaredAuth env keys accts scope act da = .ok () := by
  induction das with
  | nil => cases hmem
  | cons hd tl ih =>
    unfold checkAuthList at h
    rcases hchk : checkDeclaredAuth env keys accts scope act hd with e | u
    · rw [hchk] at h
      exact Except.noConfusion h
    · rw [hchk] at h
      rcases List.mem_cons.mp hmem with rfl | hmem'
      · cases u
        exact hchk
      · exact ih hmem' h

/-- Helper: a successful outer loop means every action's inner loop
succeeded. -/
theorem checkActions_ok_mem (env : AuthEnv) (keys : List Nat)
    (accts : List PermLevel) (acts : List ActionData) (act : ActionData)
    (hmem : act ∈ acts) (h : checkActions env keys accts acts = .ok ()) :
    checkAuthList env keys accts act.scope act.name act.declaredAuths = .ok () := by
  induction acts with
  | nil => cases hmem
  | cons hd tl ih =>
    unfold checkActions at h
    rcases hchk : checkAuthList env keys accts hd.scope hd.name hd.declaredAuths with e | u
    · rw [hchk] at h
      exact Except.noConfusion h
    · rw [hchk] at h
      rcases List.mem_cons.mp hmem with rfl | hmem'
      · cases u
        exact hchk
      · exact ih hmem' h

/-- Helper: the per-authorization checks never read the configured chain
id. -/
theorem checkDeclaredAuth_chainId (env : AuthEnv) (keys : List Nat)
    (accts : List PermLevel) (scope act : Nat) (da : PermLevel) :
    checkDeclaredAuth { env with chainId := 0 } keys accts scope act da
      = checkDeclaredAuth env keys accts scope act da := rfl

/-- Helper: the inner authorization loop never reads the configured chain
id. -/
theorem checkAuthList_chainId (env : AuthEnv) (keys : List Nat)
    (accts : List PermLevel) (scope act : Nat) (das : List PermLevel) :
    checkAuthList { env with chainId := 0 } keys accts scope act das
      = checkAuthList env keys accts scope act das := by
  induction das with
  | nil => rfl
  | cons hd tl ih =>
    unfold checkAuthList
    rw [checkDeclaredAuth_chainId]
    cases checkDeclaredAuth env keys accts scope act hd with
    | error e => rfl
    | ok u => cases u; exact ih

/-- Helper: the action loop never reads the configured chain id. -/
theorem checkActions_chainId (env : AuthEnv) (keys : List Nat)
    (accts : List PermLevel) (acts : List ActionData) :
    checkActions { env with chainId := 0 } keys accts acts
      = checkActions env keys accts acts := by
  induction acts with
  | nil => rfl
  | cons hd tl ih =>
    unfold checkActions
    rw [checkAuthList_chainId]
    cases checkAuthList env keys accts hd.scope hd.name hd.declaredAuths with
    | error e => rfl
    | ok u => cases u; exact ih

/-- Helper: `check_authorization` never reads the configured chain id. -/
theorem check_authorization_chainId (env : AuthEnv) (trx : TrxData)
    (keys : List Nat) (b : Bool) (accts : List PermLevel) :
    check_authorization { env with chainId := 0 } trx keys b accts
      = check_authorization env trx keys b accts := by
  unfold check_authorization
  rw [checkActions_chainId]

/-- Counterexample for C6: with the chain's configured id 1 and signatures
that recover the needed key only under chain id 1,
`check_transaction_authorization` rejects the transaction with
`tx_missing_sigs` — because it recovers keys under a default-constructed
(zero) chain id — whereas the claimed behaviour (recovery under the
chain's actual id) would accept it. -/
theorem c6_chain_id_counterexample :
    check_transaction_authorization c6Env c6Trx false = .error txMissingSigs
    ∧ check_transaction_authorization_claim c6Env c6Trx false = .ok () :=
  ⟨rfl, rfl⟩

/-- C6 amended: `check_transaction_authorization` recovers the signer keys
over the digest with the default-constructed (zero) chain id — behaving,
for every environment, exactly like the claimed reading would on a chain
whose configured id is 0 — and, on success, every declared authority of
every action is satisfied by the checker over those recovered keys (unless
signature checking is skipped). -/
theorem c6_default_chain_id_keys (env : AuthEnv) (trx : TrxData) (b : Bool) :
    check_transaction_authorization env trx b
      = check_transaction_authorization_claim { env with chainId := 0 } trx b
    ∧ (check_transaction_authorization env trx b = .ok () →
        ∀ act ∈ trx.actions, ∀ da ∈ act.declaredAuths,
          env.skipTrxSigs = true ∨
            authSatisfied env.getAuth (env.recover 0 trx) [] env.maxDepth da = true) := by
  constructor
  · show check_authorization env trx (env.recover 0 trx) b []
      = check_authorization { env with chainId := 0 } trx (env.recover 0 trx) b []
    exact (check_authorization_chainId env trx (env.recover 0 trx) b []).symm
  · intro hok act hact da hda
    unfold check_transaction_authorization check_authorization at hok
    rcases hacts : checkActions env (env.recover 0 trx) [] trx.actions with e | u
    · rw [hacts] at hok
      exact Except.noConfusion hok
    · cases u
      have hlist := checkActions_ok_mem env (env.recover 0 trx) [] trx.actions act hact hacts
      have hda' := checkAuthList_ok_mem env (env.recover 0 trx) [] act.scope act.name
        act.declaredAuths da hda hlist
      unfold checkDeclaredAuth at hda'
      by_cases hsig : env.skipTrxSigs = true
      · exact Or.inl hsig
      · refine Or.inr ?_
        by_cases hsat : authSatisfied env.getAuth (env.recover 0 trx) [] env.maxDepth da = true
        · exact hsat
        · exfalso
          have hc2 : env.skipTrxSigs = false ∧
              authSatisfied env.getAuth (env.recover 0 trx) [] env.maxDepth da = false :=
            ⟨Bool.not_eq_true _ ▸ Bool.of_not_eq_true hsig, Bool.of_not_eq_true hsat⟩
          rcases hc1 : (env.skipAuthCheck = false ∧
              env.permSatisfies da (env.minPermOf da.actor act.scope act.name) = false) with _
          by_cases hc1' : env.skipAuthCheck = false ∧
              env.permSatisfies da (env.minPermOf da.actor act.scope act.name) = false
          · rw [if_pos hc1'] at hda'
            exact Except.noConfusion hda'
          · rw [if_neg hc1', if_pos hc2] at hda'
            exact Except.noConfusion hda'

/-- Witness for C6's amended statement: an environment whose signatures
check out under the default chain id passes, and the declared authority is
indeed satisfied by the keys recovered under id 0. -/
theorem c6_default_chain_id_keys_witness :
    check_transaction_authorization c6WEnv c6Trx false
      = check_transaction_authorization_claim { c6WEnv with chainId := 0 } c6Trx false
    ∧ (c6WEnv.skipTrxSigs = true ∨
        authSatisfied c6WEnv.getAuth (c6WEnv.recover 0 c6Trx) [] c6WEnv.maxDepth
          { actor := 8, permission := 0 } = true) :=
  ⟨(c6_default_chain_id_keys c6WEnv c6Trx false).1,
   (c6_default_chain_id_keys c6WEnv c6Trx false).2 rfl
     { scope := 3, name := 4, declaredAuths := [{ actor := 8, permission := 0 }] }
     (by decide) { actor := 8, permission := 0 } (by decide)⟩

end Auth

namespace Ctrl

/-- Helper: popping the fork database only removes items. -/
theorem fdbPop_subset (fd : ForkDB) : ∀ x ∈ (fdbPop fd).items, x ∈ fd.items := by
  intro x hx
  unfold fdbPop at hx
  cases hh : fd.head with
  | none => rw [hh] at hx; exact hx
  | some h => rw [hh] at hx; exact List.mem_of_mem_filter hx

/-- Helper: with enough fuel, the pop loop strips exactly the snapshots
whose head ids differ from the target, stopping at the first snapshot
whose head id is the target, and only ever removes fork-database items. -/
theorem popUntil_strip (target : Nat) (rest : List ChainSt) (s0 : ChainSt)
    (h0 : s0.headId = target) :
    ∀ (pre : List ChainSt), (∀ s ∈ pre, s.headId ≠ target) →
    ∀ (fuel : Nat), pre.length < fuel → ∀ fd : ForkDB,
      ∃ fd', popUntil fuel target fd (pre ++ s0 :: rest) = (fd', s0 :: rest)
        ∧ ∀ x ∈ fd'.items, x ∈ fd.items := by
  intro pre
  induction pre with
  | nil =>
    intro _ fuel hfuel fd
    cases fuel with
    | zero => exact absurd hfuel (Nat.not_lt_zero _)
    | succ n =>
      refine ⟨fd, ?_, fun x hx => hx⟩
      unfold popUntil
      have hcur : (currentState ([] ++ s0 :: rest)).headId = target := h0
      rw [if_pos hcur]
      rfl
  | cons p pre' ih =>
    intro hpre fuel hfuel fd
    cases fuel with
    | zero => exact absurd hfuel (Nat.not_lt_zero _)
    | succ n =>
      have hob : ¬ (currentState ((p :: pre') ++ s0 :: rest)).headId = target :=
        hpre p (List.mem_cons_self p pre')
      obtain ⟨fd', heq, hsub⟩ := ih (fun s hs => hpre s (List.mem_cons_of_mem p hs)) n
        (Nat.lt_of_succ_lt_succ hfuel) (fdbPop fd)
      refine ⟨fd', ?_, fun x hx => fdbPop_subset fd x (hsub x hx)⟩
      unfold popUntil
      rw [if_neg hob]
      exact heq

/-- Helper: membership after `fdbRemove`. -/
theorem fdbRemove_bid (fd : ForkDB) (bid : Nat) (x : CBlock)
    (hx : x ∈ (fdbRemove fd bid).items) : x ∈ fd.items ∧ x.bid ≠ bid := by
  unfold fdbRemove at hx
  have hm := List.mem_filter.mp hx
  refine ⟨hm.1, ?_⟩
  simpa using hm.2

/-- Helper: the removal fold only removes items. -/
theorem removeFold_subset (rem : List CBlock) :
    ∀ (fd : ForkDB) (x : CBlock),
      x ∈ (rem.foldl (fun f b => fdbRemove f b.bid) fd).items → x ∈ fd.items := by
  induction rem with
  | nil => intro fd x hx; exact hx
  | cons hd tl ih =>
    intro fd x hx
    exact (fdbRemove_bid fd hd.bid x (ih (fdbRemove fd hd.bid) x hx)).1

/-- Helper: after the removal fold, no removed id remains. -/
theorem removeFold_removed (rem : List CBlock) :
    ∀ (fd : ForkDB) (b : CBlock), b ∈ rem →
      ∀ x ∈ (rem.foldl (fun f b => fdbRemove f b.bid) fd).items, x.bid ≠ b.bid := by
  induction rem with
  | nil => intro fd b hb; cases hb
  | cons hd tl ih =>
    intro fd b hb x hx
    rcases List.mem_cons.mp hb with rfl | hb'
    · exact (fdbRemove_bid fd b.bid x (removeFold_subset tl (fdbRemove fd b.bid) x hx)).2
    · exact ih (fdbRemove fd hd.bid) b hb' x hx

/-- Helper: a fork switch whose new-branch application fails mid-way
removes the failing tail of the new branch from the fork database,
restores the undo stack of the old branch exactly, and re-raises the
original error.  The hypotheses record what the fork database returned for
the two branches, that the current stack consists of the old branch's
snapshots above the common ancestor, that applying the new branch from the
common ancestor fails with error `e` leaving `rem` unapplied, and that the
head ids above the common ancestor differ from the ancestor's (so the pop
loops stop exactly there). -/
theorem switchForks_fail_restores (applyB : ChainSt → CBlock → Except Nat ChainSt)
    (fuel : Nat) (fd : ForkDB) (hist : List ChainSt) (newHeadId : Nat)
    (bNew bOld : List CBlock) (sCommon : ChainSt)
    (base oldStack midStack : List ChainSt) (e : Nat) (rem : List CBlock)
    (hfetch : fetch_branch_from fd fuel newHeadId (currentState hist).headId
        = .ok (bNew, bOld))
    (htarget : (bOld.getLast?.map CBlock.previous).getD 0 = sCommon.headId)
    (hhist : hist = oldStack ++ sCommon :: base)
    (holdids : ∀ s ∈ oldStack, s.headId ≠ sCommon.headId)
    (hfail : applyBranchBlocks applyB (sCommon :: base) bNew.reverse
        = (some (e, rem), midStack ++ sCommon :: base))
    (hmidids : ∀ s ∈ midStack, s.headId ≠ sCommon.headId)
    (holdapply : applyBranchBlocks applyB (sCommon :: base) bOld.reverse
        = (none, oldStack ++ sCommon :: base))
    (hfuel1 : oldStack.length < fuel) (hfuel2 : midStack.length < fuel) :
    ∃ fd', switchForks applyB fuel fd hist newHeadId
        = (some e, fd', oldStack ++ sCommon :: base)
      ∧ ∀ b ∈ rem, ∀ x ∈ fd'.items, x.bid ≠ b.bid := by
  subst hhist
  unfold switchForks
  rw [hfetch]
  dsimp only
  rw [htarget]
  obtain ⟨fd1, hp1, _⟩ := popUntil_strip sCommon.headId base sCommon rfl oldStack
    holdids fuel hfuel1 fd
  rw [hp1]
  dsimp only
  rw [hfail]
  dsimp only
  cases htip : bOld.head? with
  | none =>
    obtain ⟨fd3, hp2, hsub3⟩ := popUntil_strip sCommon.headId base sCommon rfl midStack
      hmidids fuel hfuel2 (rem.foldl (fun f b => fdbRemove f b.bid) fd1)
    rw [hp2]
    dsimp only
    rw [holdapply]
    refine ⟨fd3, rfl, ?_⟩
    intro b hb x hx
    exact removeFold_removed rem fd1 b hb x (hsub3 x hx)
  | some oldTip =>
    obtain ⟨fd3, hp2, hsub3⟩ := popUntil_strip sCommon.headId base sCommon rfl midStack
      hmidids fuel hfuel2
      (fdbSetHead (rem.foldl (fun f b => fdbRemove f b.bid) fd1) oldTip)
    rw [hp2]
    dsimp only
    rw [holdapply]
    refine ⟨fd3, rfl, ?_⟩
    intro b hb x hx
    exact removeFold_removed rem fd1 b hb x (hsub3 x hx)

/-- C1: when a block pushed into `_push_block` triggers a fork switch and
applying a block of the new branch fails mid-switch, the controller
removes the failing block and the remaining new-branch blocks from the
fork database, restores the previous canonical branch — the undo stack,
and with it the chain state, is byte-identical to what it was after
applying only the old branch — and re-raises the original error. -/
theorem c1_failed_fork_switch_restores (applyB : ChainSt → CBlock → Except Nat ChainSt)
    (fuel : Nat) (fd : ForkDB) (hist : List ChainSt) (nb : CBlock)
    (bNew bOld : List CBlock) (sCommon : ChainSt)
    (base oldStack midStack : List ChainSt) (e : Nat) (rem : List CBlock)
    (hprev : ¬ (fdbPush fd nb).2.previous = (currentState hist).headId)
    (hnum : (currentState hist).headNum < (fdbPush fd nb).2.blockNum)
    (hfetch : fetch_branch_from (fdbPush fd nb).1 fuel (fdbPush fd nb).2.bid
        (currentState hist).headId = .ok (bNew, bOld))
    (htarget : (bOld.getLast?.map CBlock.previous).getD 0 = sCommon.headId)
    (hhist : hist = oldStack ++ sCommon :: base)
    (holdids : ∀ s ∈ oldStack, s.headId ≠ sCommon.headId)
    (hfail : applyBranchBlocks applyB (sCommon :: base) bNew.reverse
        = (some (e, rem), midStack ++ sCommon :: base))
    (hmidids : ∀ s ∈ midStack, s.headId ≠ sCommon.headId)
    (holdapply : applyBranchBlocks applyB (sCommon :: base) bOld.reverse
        = (none, oldStack ++ sCommon :: base))
    (hfuel1 : oldStack.length < fuel) (hfuel2 : midStack.length < fuel) :
    ∃ fd', _push_block applyB fuel false fd hist nb = (some e, true, fd', hist)
      ∧ ∀ b ∈ rem, ∀ x ∈ fd'.items, x.bid ≠ b.bid := by
  obtain ⟨fd', hsw, hrem⟩ := switchForks_fail_restores applyB fuel (fdbPush fd nb).1
    hist (fdbPush fd nb).2.bid bNew bOld sCommon base oldStack midStack e rem
    hfetch htarget hhist holdids hfail hmidids holdapply hfuel1 hfuel2
  refine ⟨fd', ?_, hrem⟩
  unfold _push_block
  dsimp only
  rw [if_pos hprev, if_pos hnum, hsw, hhist]
  rfl

/-- Witness for C1: branch X (block 5), then a longer branch Y whose
second block deliberately fails; the push re-raises error 42, the undo
stack is byte-identical to the branch-X stack, and the failing block is
gone from the fork database. -/
theorem c1_failed_fork_switch_restores_witness :
    ∃ fd', _push_block c1Apply 10 false c1Fdb0 c1Hist0 c1B6y
        = (some 42, true, fd', c1Hist0)
      ∧ ∀ b ∈ [c1B6y], ∀ x ∈ fd'.items, x.bid ≠ b.bid :=
  c1_failed_fork_switch_restores c1Apply 10 c1Fdb0 c1Hist0 c1B6y
    [c1B6y, c1B5y] [c1B5] c1S4 [] [c1S5] [c1S5y] 42 [c1B6y]
    (by decide) (by decide) rfl (by decide) rfl (by decide) rfl (by decide)
    rfl (by decide) (by decide)

/-- Counterexample for C2: two consecutive successful `push_block`
operations after which the stored `last_irreversible_block_num` has
decreased from 5 to 4 — the fork switch pops canonical block 6, whose
session undo rewinds the stored LIB (and the confirmation numbers) to
their block-5 values, and the competing branch applied afterwards, being
signed by one producer only, leaves the recomputed candidate at 4. -/
theorem c2_fork_switch_decreases_lib :
    (currentState c2Hist0).lib = 5
    ∧ _push_block applyBlockC 10 false c2Fdb0 c2Hist0 c2B6x
        = (none, false, c2Fdb1, c2Hist0)
    ∧ _push_block applyBlockC 10 false c2Fdb1 c2Hist0 c2B7x
        = (none, true, c2Fdb2, c2Hist2)
    ∧ (currentState c2Hist2).lib = 4 := by
  exact ⟨rfl, by decide, by decide, rfl⟩

/-- C7: the internal `_push_block` computes the fork-switch boolean —
false when the pushed block extends the current head, false when it
belongs to an equal-height branch, true when a fork switch runs — but the
public `push_block`, declared `void` despite its own `@return` comment,
discards it: the caller receives only the error slot and the resulting
state. -/
theorem c7_push_block_discards_switch_flag :
    (_push_block applyBlockC 10 false c2Fdb0 c2Hist0 c2B7d).2.1 = false
    ∧ (_push_block applyBlockC 10 false c2Fdb0 c2Hist0 c2B6x).2.1 = false
    ∧ (_push_block applyBlockC 10 false c2Fdb1 c2Hist0 c2B7x).2.1 = true
    ∧ push_block applyBlockC 10 false c2Fdb1 c2Hist0 c2B7x
        = ((_push_block applyBlockC 10 false c2Fdb1 c2Hist0 c2B7x).1,
           (_push_block applyBlockC 10 false c2Fdb1 c2Hist0 c2B7x).2.2) := by
  exact ⟨by decide, by decide, by decide, rfl⟩

end Ctrl

end Eos
